import Mathlib

/-
Verification of the client-resident session credential lifecycle manager
(class TokenManager, src/server/consolidated-server/src/utils/cloudinary.js,
second document in the file).  The JavaScript is shallowly embedded:
JS runtime values that flow into the token helpers are modelled by JSVal,
JSON document values by JsonValue, the browser atob builtin by a
forgiving-base64 decoder over character lists, and JSON.parse by a
fuel-based recursive-descent parser.  JSON numbers are evaluated exactly
as decimals (mantissa times a power of ten), with integral values
exposed as integers; ToNumber of strings follows the
string-numeric-literal grammar (decimal with fraction and exponent, hex,
octal, binary, Infinity); rounding of extreme values to double precision
is not modelled, and non-primitive values coerce to NaN.
-/

namespace Mocka

/-- A JavaScript runtime value as far as the token helpers can observe it:
the token argument may be undefined, null, a boolean, a number, a string,
or some other reference value. -/
inductive JSVal where
  | undef
  | null
  | boolV (b : Bool)
  | numV (n : Int)
  | strV (s : String)
  | objRef (id : Nat)
deriving DecidableEq, Repr

/-- An exact decimal value m times 10 to the e (JSON numbers and JS
string numeric literals are decimal literals, so their exact values live
here; the rounding of extreme values to double precision is not
modelled). -/
structure Dec where
  m : Int
  e : Int
deriving DecidableEq, Repr

/-- Exact subtraction of an integer from a decimal value, by aligning
the exponents. -/
def Dec.subInt (d : Dec) (b : Int) : Dec :=
  if 0 ≤ d.e then { m := d.m * (10 : Int) ^ d.e.toNat - b, e := 0 }
  else { m := d.m - b * (10 : Int) ^ (-d.e).toNat, e := d.e }

/-- Exact comparison of a decimal value against an integer bound, by
clearing the denominator (10 to a positive power) when the exponent is
negative. -/
def Dec.ltInt (d : Dec) (b : Int) : Bool :=
  if 0 ≤ d.e then decide (d.m * (10 : Int) ^ d.e.toNat < b)
  else decide (d.m < b * (10 : Int) ^ (-d.e).toNat)

/-- A parsed JSON document value, the result of JSON.parse.  Numbers are
evaluated exactly: integral values are carried by num, all others by
numq as exact decimals. -/
inductive JsonValue where
  | null
  | bool (b : Bool)
  | num (n : Int)
  | numq (d : Dec)
  | str (s : String)
  | arr (elems : List JsonValue)
  | obj (fields : List (String × JsonValue))

/-- JS truthiness of a property read: undefined (none), null, 0, the empty
string and false are falsy; every other value is truthy. -/
def truthy : Option JsonValue → Bool
  | none => false
  | some .null => false
  | some (.bool b) => b
  | some (.num n) => n != 0
  | some (.numq d) => d.m != 0
  | some (.str s) => s != ""
  | some (.arr _) => true
  | some (.obj _) => true

/-- Property read on a JSON value: for objects the last binding of the key
wins (JSON.parse keeps the last duplicate); every other value has no own
properties of interest. -/
def getField (v : JsonValue) (k : String) : Option JsonValue :=
  match v with
  | .obj fields => fields.foldl (fun acc p => if p.1 = k then some p.2 else acc) none
  | _ => none

/-- Value of a base64 alphabet character. -/
def b64Val (c : Char) : Option Nat :=
  if 'A' ≤ c ∧ c ≤ 'Z' then some (c.toNat - 65)
  else if 'a' ≤ c ∧ c ≤ 'z' then some (c.toNat - 97 + 26)
  else if '0' ≤ c ∧ c ≤ '9' then some (c.toNat - 48 + 52)
  else if c = '+' then some 62
  else if c = '/' then some 63
  else none

/-- ASCII whitespace stripped by the forgiving-base64 decode. -/
def isB64Space (c : Char) : Bool :=
  c = ' ' || c = '\t' || c = '\n' || c = '\x0c' || c = '\r'

/-- Remove up to two trailing padding characters. -/
def dropTrailingEq (cs : List Char) : List Char :=
  match cs.reverse with
  | '=' :: '=' :: rest => rest.reverse
  | '=' :: rest => rest.reverse
  | _ => cs

/-- Turn a list of 6-bit values into the decoded bytes (as latin-1 chars,
matching the string atob returns); excess bits of a trailing group of two
or three characters are discarded. -/
def b64Bytes : List Nat → List Char
  | a :: b :: c :: d :: rest =>
      let n := a * 262144 + b * 4096 + c * 64 + d
      Char.ofNat (n / 65536) :: Char.ofNat (n / 256 % 256) :: Char.ofNat (n % 256) ::
        b64Bytes rest
  | [a, b] => [Char.ofNat ((a * 64 + b) / 16)]
  | [a, b, c] => [Char.ofNat ((a * 4096 + b * 64 + c) / 1024),
      Char.ofNat ((a * 4096 + b * 64 + c) / 4 % 256)]
  | _ => []

/-- The browser atob builtin (forgiving-base64 decode): strip ASCII
whitespace, strip up to two trailing padding chars when the length is a
multiple of four, reject a remaining length of 1 mod 4 or any character
outside the alphabet, then decode. -/
def atob (cs : List Char) : Option (List Char) :=
  let cs := cs.filter (fun c => !isB64Space c)
  let cs := if cs.length % 4 = 0 then dropTrailingEq cs else cs
  if cs.length % 4 = 1 then none
  else (cs.mapM b64Val).map b64Bytes

/-- Skip JSON whitespace. -/
def skipWs : List Char → List Char
  | c :: rest => if c = ' ' || c = '\t' || c = '\n' || c = '\r' then skipWs rest else c :: rest
  | [] => []

/-- Hexadecimal digit value. -/
def hexVal (c : Char) : Option Nat :=
  if '0' ≤ c ∧ c ≤ '9' then some (c.toNat - 48)
  else if 'a' ≤ c ∧ c ≤ 'f' then some (c.toNat - 97 + 10)
  else if 'A' ≤ c ∧ c ≤ 'F' then some (c.toNat - 65 + 10)
  else none

/-- Parse the body of a JSON string literal (after the opening quote),
handling the standard escapes. -/
def jparseStrBody : Nat → List Char → List Char → Option (String × List Char)
  | 0, _, _ => none
  | fuel + 1, cs, acc =>
    match cs with
    | [] => none
    | '"' :: rest => some (String.mk acc.reverse, rest)
    | '\\' :: rest =>
      match rest with
      | '"' :: r => jparseStrBody fuel r ('"' :: acc)
      | '\\' :: r => jparseStrBody fuel r ('\\' :: acc)
      | '/' :: r => jparseStrBody fuel r ('/' :: acc)
      | 'n' :: r => jparseStrBody fuel r ('\n' :: acc)
      | 't' :: r => jparseStrBody fuel r ('\t' :: acc)
      | 'r' :: r => jparseStrBody fuel r ('\r' :: acc)
      | 'b' :: r => jparseStrBody fuel r ('\x08' :: acc)
      | 'f' :: r => jparseStrBody fuel r ('\x0c' :: acc)
      | 'u' :: h1 :: h2 :: h3 :: h4 :: r =>
        match hexVal h1, hexVal h2, hexVal h3, hexVal h4 with
        | some a, some b, some c, some d =>
            jparseStrBody fuel r (Char.ofNat (a * 4096 + b * 256 + c * 16 + d) :: acc)
        | _, _, _, _ => none
      | _ => none
    | c :: rest => if c.toNat < 32 then none else jparseStrBody fuel rest (c :: acc)

/-- Read a maximal run of decimal digits: value, digit count, rest. -/
def readDigits (cs : List Char) : Nat × Nat × List Char :=
  ((cs.takeWhile (·.isDigit)).foldl (fun a c => a * 10 + (c.toNat - 48)) 0,
   (cs.takeWhile (·.isDigit)).length,
   cs.dropWhile (·.isDigit))

/-- Exact value of a decimal literal given as sign, integer part,
fraction digits (value and count) and decimal exponent. -/
def decToDec (neg : Bool) (ival fval fcount : Nat) (e : Int) : Dec :=
  let mant : Int := (ival : Int) * (10 : Int) ^ fcount + (fval : Int)
  { m := if neg then -mant else mant, e := e - (fcount : Int) }

/-- After a leading e or E: an optionally signed nonempty digit run. -/
def jparseExpTail (cs : List Char) : Option (Int × List Char) :=
  let signed := match cs with
    | '+' :: r => (false, r)
    | '-' :: r => (true, r)
    | _ => (false, cs)
  let d := readDigits signed.2
  if d.2.1 = 0 then none
  else some (if signed.1 then -(d.1 : Int) else (d.1 : Int), d.2.2)

/-- The optional exponent part of a number literal. -/
def jparseExpPart (cs : List Char) : Option (Int × List Char) :=
  match cs with
  | 'e' :: r => jparseExpTail r
  | 'E' :: r => jparseExpTail r
  | _ => some (0, cs)

/-- Parse a JSON number literal: optional minus, integer part with no
redundant leading zero, optional fraction (nonempty when the dot is
present), optional exponent; the value is computed exactly. -/
def jparseNum (cs : List Char) : Option (Dec × List Char) :=
  let signed := match cs with
    | '-' :: r => (true, r)
    | _ => (false, cs)
  let di := readDigits signed.2
  if di.2.1 = 0 then none
  else if di.2.1 > 1 ∧ signed.2.headD 'x' = '0' then none
  else
    match di.2.2 with
    | '.' :: rd =>
      let df := readDigits rd
      if df.2.1 = 0 then none
      else
        match jparseExpPart df.2.2 with
        | some (e, r3) => some (decToDec signed.1 di.1 df.1 df.2.1 e, r3)
        | none => none
    | r1 =>
      match jparseExpPart r1 with
      | some (e, r3) => some (decToDec signed.1 di.1 0 0 e, r3)
      | none => none

/-- The number value JSON.parse exposes: integral values as integers
(1e2 is the integer 100, 2.0 the integer 2), all others as exact
decimals. -/
def mkNum (d : Dec) : JsonValue :=
  if 0 ≤ d.e then .num (d.m * (10 : Int) ^ d.e.toNat)
  else if d.m % (10 : Int) ^ (-d.e).toNat = 0 then .num (d.m / (10 : Int) ^ (-d.e).toNat)
  else .numq d

mutual

/-- Parse one JSON value. -/
def jparseVal : Nat → List Char → Option (JsonValue × List Char)
  | 0, _ => none
  | fuel + 1, cs =>
    match skipWs cs with
    | 'n' :: 'u' :: 'l' :: 'l' :: rest => some (.null, rest)
    | 't' :: 'r' :: 'u' :: 'e' :: rest => some (.bool true, rest)
    | 'f' :: 'a' :: 'l' :: 's' :: 'e' :: rest => some (.bool false, rest)
    | '"' :: rest => (jparseStrBody (fuel + 1) rest []).map (fun p => (.str p.1, p.2))
    | '\x7b' :: rest =>
      (match skipWs rest with
       | '\x7d' :: rest2 => some (.obj [], rest2)
       | cs2 => (jparsePairs fuel cs2 []).map (fun p => (.obj p.1, p.2)))
    | '[' :: rest =>
      (match skipWs rest with
       | ']' :: rest2 => some (.arr [], rest2)
       | cs2 => (jparseItems fuel cs2 []).map (fun p => (.arr p.1, p.2)))
    | cs2 => (jparseNum cs2).map (fun p => (mkNum p.1, p.2))

/-- Parse the members of a JSON object (after the opening brace, nonempty). -/
def jparsePairs : Nat → List Char → List (String × JsonValue) →
    Option (List (String × JsonValue) × List Char)
  | 0, _, _ => none
  | fuel + 1, cs, acc =>
    match skipWs cs with
    | '"' :: rest =>
      (match jparseStrBody (fuel + 1) rest [] with
       | none => none
       | some (k, rest2) =>
         match skipWs rest2 with
         | ':' :: rest3 =>
           (match jparseVal fuel rest3 with
            | none => none
            | some (v, rest4) =>
              match skipWs rest4 with
              | ',' :: rest5 => jparsePairs fuel rest5 (acc ++ [(k, v)])
              | '\x7d' :: rest5 => some (acc ++ [(k, v)], rest5)
              | _ => none)
         | _ => none)
    | _ => none

/-- Parse the elements of a JSON array (after the opening bracket, nonempty). -/
def jparseItems : Nat → List Char → List JsonValue →
    Option (List JsonValue × List Char)
  | 0, _, _ => none
  | fuel + 1, cs, acc =>
    match jparseVal fuel cs with
    | none => none
    | some (v, rest) =>
      match skipWs rest with
      | ',' :: rest2 => jparseItems fuel rest2 (acc ++ [v])
      | ']' :: rest2 => some (acc ++ [v], rest2)
      | _ => none

end

/-- JSON.parse: parse one value and require only whitespace after it. -/
def jsonParse (cs : List Char) : Option JsonValue :=
  match jparseVal (2 * cs.length + 4) cs with
  | some (v, rest) => if skipWs rest = [] then some v else none
  | none => none

/-- The two regex replacements of the source, mapping base64url to base64:
every dash becomes plus, every underscore becomes slash. -/
def b64urlFix (cs : List Char) : List Char :=
  (cs.map (fun c => if c = '-' then '+' else c)).map (fun c => if c = '_' then '/' else c)

/-- The String.prototype.split call of the source with separator dot:
non-collapsing split producing empty segments. -/
def splitDotsGo : List Char → List Char → List (List Char)
  | [], acc => [acc.reverse]
  | '.' :: rest, acc => acc.reverse :: splitDotsGo rest []
  | c :: rest, acc => splitDotsGo rest (c :: acc)

def splitOnDot (cs : List Char) : List (List Char) := splitDotsGo cs []

/-- Decode and parse a payload segment: base64url fixup, atob, JSON.parse. -/
def parsePayloadSeg (p : List Char) : Option JsonValue :=
  (atob (b64urlFix p)).bind jsonParse

/-- The try block of validateTokenStructure applied to the payload
segment: decode and parse it, then return the conjunction payload.sub and
payload.exp and payload.iat (truthiness of the three property reads); a
thrown decode or parse error yields false. -/
def payloadClaims (p : List Char) : Bool :=
  match parsePayloadSeg p with
  | some payload =>
      truthy (getField payload "sub") && truthy (getField payload "exp") &&
        truthy (getField payload "iat")
  | none => false

/-- TokenManager.validateTokenStructure (source lines 241 to 260): falsy
or non-string input is rejected, the string must split on dots into
exactly three parts, and the payload checks of the try block decide the
rest. -/
def validateTokenStructure (token : JSVal) : Bool :=
  match token with
  | .strV s =>
    if s = "" then false
    else
      match splitOnDot s.toList with
      | [_, p, _] => payloadClaims p
      | _ => false
  | _ => false

/-- The try body of TokenManager.decodeToken (source lines 263 to 272):
take the second dot-separated segment (an absent segment makes the replace
call throw), fix up base64url, atob, JSON.parse; none stands for any
thrown error. -/
def decodeTry (token : JSVal) : Option JsonValue :=
  match token with
  | .strV s => ((splitOnDot s.toList)[1]?).bind parsePayloadSeg
  | _ => none

/-- TokenManager.decodeToken: the try body with every failure caught and
turned into the empty object. -/
def decodeToken (token : JSVal) : JsonValue :=
  (decodeTry token).getD (.obj [])

/-- A JS number as far as the comparisons in scope observe it: NaN, a
signed infinity, or a finite value carried as an exact decimal. -/
inductive JSNum where
  | nan
  | inf (pos : Bool)
  | fin (d : Dec)
deriving DecidableEq, Repr

/-- Value of a digit in the given radix (radix at most 16). -/
def radixVal (b : Nat) (c : Char) : Option Nat :=
  match hexVal c with
  | some v => if v < b then some v else none
  | none => none

/-- Value of a nonempty base-b digit run. -/
def radixNat (b : Nat) (cs : List Char) : Option Nat :=
  if cs.isEmpty then none
  else cs.foldl (fun acc c => acc.bind (fun a => (radixVal b c).map (fun v => a * b + v)))
    (some 0)

/-- An optionally signed decimal literal or Infinity, consuming the whole
remaining input (the StrDecimalLiteral production): digits, an optional
fraction, an optional exponent, where at least one digit must appear on
either side of the dot; evaluated exactly. -/
def strDecimal (cs : List Char) : JSNum :=
  let signed := match cs with
    | '+' :: r => (false, r)
    | '-' :: r => (true, r)
    | _ => (false, cs)
  if signed.2 = "Infinity".toList then .inf (!signed.1)
  else
    let di := readDigits signed.2
    let frac := match di.2.2 with
      | '.' :: rd =>
        let df := readDigits rd
        (df.1, df.2.1, df.2.2)
      | r1 => (0, 0, r1)
    if di.2.1 = 0 ∧ frac.2.1 = 0 then .nan
    else
      match jparseExpPart frac.2.2 with
      | some (e, r3) =>
        if r3.isEmpty then .fin (decToDec signed.1 di.1 frac.1 frac.2.1 e) else .nan
      | none => .nan

/-- JS ToNumber of a string (the StringNumericLiteral grammar): trimmed;
the empty string is 0; unsigned hexadecimal, octal and binary integer
literals; otherwise an optionally signed decimal literal or Infinity;
anything else is NaN. -/
def strToNumber (s : String) : JSNum :=
  let t := s.trim
  if t = "" then .fin { m := 0, e := 0 }
  else
    match t.toList with
    | '0' :: 'x' :: r => (match radixNat 16 r with | some n => .fin { m := n, e := 0 } | none => .nan)
    | '0' :: 'X' :: r => (match radixNat 16 r with | some n => .fin { m := n, e := 0 } | none => .nan)
    | '0' :: 'o' :: r => (match radixNat 8 r with | some n => .fin { m := n, e := 0 } | none => .nan)
    | '0' :: 'O' :: r => (match radixNat 8 r with | some n => .fin { m := n, e := 0 } | none => .nan)
    | '0' :: 'b' :: r => (match radixNat 2 r with | some n => .fin { m := n, e := 0 } | none => .nan)
    | '0' :: 'B' :: r => (match radixNat 2 r with | some n => .fin { m := n, e := 0 } | none => .nan)
    | cs => strDecimal cs

/-- JS ToNumber of a property read: undefined is NaN, null and booleans
coerce numerically, numbers are themselves, strings follow the
string-numeric grammar; plain objects coerce through their string form
[object Object], hence NaN, and arrays are likewise modelled as NaN
(their toString form is their comma-joined elements, none of which is a
session payload in scope). -/
def jsToNumber : Option JsonValue → JSNum
  | none => .nan
  | some .null => .fin { m := 0, e := 0 }
  | some (.bool b) => .fin { m := if b then 1 else 0, e := 0 }
  | some (.num n) => .fin { m := n, e := 0 }
  | some (.numq d) => .fin d
  | some (.str s) => strToNumber s
  | some (.arr _) => .nan
  | some (.obj _) => .nan

/-- JS subtraction of an integer from a number: NaN and infinities are
absorbing. -/
def jsSub (a : JSNum) (b : Int) : JSNum :=
  match a with
  | .nan => .nan
  | .inf p => .inf p
  | .fin d => .fin (d.subInt b)

/-- JS less-than against an integer bound: a NaN comparison is always
false, minus infinity is below every bound and plus infinity above. -/
def jsLt (a : JSNum) (b : Int) : Bool :=
  match a with
  | .nan => false
  | .inf p => !p
  | .fin d => d.ltInt b

/-- The session object returned by the Session Provider, as far as the
manager reads it: only the idToken field. -/
structure Session where
  idToken : JSVal
deriving DecidableEq, Repr

/-- The Shared Token Store (useTokenStore): current credential, last
refresh time, last activity time. -/
structure TokenStore where
  currentToken : Option JSVal
  lastRefresh : Option Nat
  lastActivity : Option Nat
deriving DecidableEq, Repr

/-- The mutable per-instance state of TokenManager together with the
Shared Token Store it mutates.  Timer fields hold the scheduled delay or
interval of the live handle, none when no handle is live. -/
structure TMState where
  refreshTimer : Option Nat
  activityTimer : Option Nat
  warningTimer : Option Nat
  autoSaveTimer : Option Nat
  isHandlingFailure : Bool
  failureTimeout : Option Nat
  tokenRetryCount : Nat
  maxTokenRetries : Nat
  backoffBase : Nat
  store : TokenStore
deriving DecidableEq, Repr

/-- The state set up by the TokenManager constructor. -/
def initState : TMState where
  refreshTimer := none
  activityTimer := none
  warningTimer := none
  autoSaveTimer := none
  isHandlingFailure := false
  failureTimeout := none
  tokenRetryCount := 0
  maxTokenRetries := 3
  backoffBase := 1000
  store := { currentToken := none, lastRefresh := none, lastActivity := none }

/-- TokenManager.clearAllTimers (source lines 454 to 475): cancel and null
out every timer handle, the auto-save interval and the pending sign-out
included. -/
def clearAllTimers (s : TMState) : TMState :=
  { s with refreshTimer := none, activityTimer := none, warningTimer := none,
           autoSaveTimer := none, failureTimeout := none }

/-- Observable outcome of one handleTokenFailure invocation. -/
structure FailureOutcome where
  state : TMState
  ran : Bool
  cleanupCalls : Nat
  notifyCalls : Nat
  signOutDelay : Option Nat
deriving DecidableEq, Repr

/-- TokenManager.handleTokenFailure (source lines 367 to 408): a no-op
when the failure flag is already set; otherwise set the flag, cancel all
timers, run the emergency cleanup collaborator, surface one error
notification, and schedule the forced sign-out after 3000 ms. -/
def handleTokenFailure (s : TMState) (reason : String) : FailureOutcome :=
  if s.isHandlingFailure then
    { state := s, ran := false, cleanupCalls := 0, notifyCalls := 0, signOutDelay := none }
  else
    let s1 := { s with isHandlingFailure := true }
    let s2 := clearAllTimers s1
    let s3 := { s2 with failureTimeout := some 3000 }
    let _ := reason
    { state := s3, ran := true, cleanupCalls := 1, notifyCalls := 1, signOutDelay := some 3000 }

/-- Observable outcome of one refreshToken invocation. -/
structure RefreshOutcome where
  state : TMState
  returned : Option JSVal
  failureInvoked : Option String
  failureRan : Bool
  retryDelay : Option Nat
deriving DecidableEq, Repr

/-- The backoff delay expression of the source (line 223):
this.backoffDelay times Math.pow(2, this.tokenRetryCount - 1). -/
def backoffDelay (base : Nat) (retryCount : Nat) : Nat :=
  base * 2 ^ (retryCount - 1)

/-- The catch block of TokenManager.refreshToken (source lines 217 to
237): increment the retry counter; below the maximum, schedule one
supplementary retry after the backoff delay; at the maximum, escalate to
handleTokenFailure with MAX_RETRIES_EXCEEDED. -/
def refreshCatch (s : TMState) : RefreshOutcome :=
  let s1 := { s with tokenRetryCount := s.tokenRetryCount + 1 }
  if s1.tokenRetryCount < s1.maxTokenRetries then
    { state := s1, returned := none, failureInvoked := none, failureRan := false,
      retryDelay := some (backoffDelay s1.backoffBase s1.tokenRetryCount) }
  else
    let f := handleTokenFailure s1 "MAX_RETRIES_EXCEEDED"
    { state := f.state, returned := none, failureInvoked := some "MAX_RETRIES_EXCEEDED",
      failureRan := f.ran, retryDelay := none }

/-- The refresh-buffer condition of the source (line 192):
tokenPayload.exp is truthy and tokenPayload.exp - now < 300, with now
equal to Math.floor(Date.now() / 1000). -/
def refreshInBuffer (tok : JSVal) (nowMs : Nat) : Bool :=
  let payload := decodeToken tok
  truthy (getField payload "exp") &&
    jsLt (jsSub (jsToNumber (getField payload "exp")) ((nowMs : Int) / 1000)) 300

/-- TokenManager.refreshToken (source lines 158 to 238).  The two awaited
getSession results are passed in as parameters (an error value stands for
a rejected promise, which lands in the catch block).  The force flag is
received but, as in the source, never read by the logic. -/
def refreshToken (s : TMState) (force : Bool) (sess1 sess2 : Except Unit (Option Session))
    (nowMs : Nat) : RefreshOutcome :=
  let _ := force
  if s.isHandlingFailure then
    { state := s, returned := none, failureInvoked := none, failureRan := false,
      retryDelay := none }
  else
    match sess1 with
    | .error _ => refreshCatch s
    | .ok none =>
      let f := handleTokenFailure s "NO_SESSION"
      { state := f.state, returned := none, failureInvoked := some "NO_SESSION",
        failureRan := f.ran, retryDelay := none }
    | .ok (some se) =>
      if !validateTokenStructure se.idToken then
        let f := handleTokenFailure s "INVALID_TOKEN_STRUCTURE"
        { state := f.state, returned := none,
          failureInvoked := some "INVALID_TOKEN_STRUCTURE", failureRan := f.ran,
          retryDelay := none }
      else
        let finishNormal : RefreshOutcome :=
          let s1 := { s with
            store := { s.store with currentToken := some se.idToken, lastRefresh := some nowMs },
            tokenRetryCount := 0 }
          { state := s1, returned := some se.idToken, failureInvoked := none,
            failureRan := false, retryDelay := none }
        if refreshInBuffer se.idToken nowMs then
          match sess2 with
          | .error _ => refreshCatch s
          | .ok fresh =>
            match fresh with
            | some fs =>
              if fs.idToken ≠ se.idToken then
                { state := { s with tokenRetryCount := 0 }, returned := some fs.idToken,
                  failureInvoked := none, failureRan := false, retryDelay := none }
              else finishNormal
            | none => finishNormal
        else finishNormal

/-- Observable outcome of one handleUserActivity invocation:
refreshCalls counts the fire-and-forget refreshToken(true) invocations it
issues. -/
structure ActivityOutcome where
  state : TMState
  refreshCalls : Nat
deriving DecidableEq, Repr

/-- TokenManager.handleUserActivity (source lines 493 to 521): an absent
session (or a rejected fetch, swallowed by the catch) is a no-op;
otherwise record lastActivity, decode the credential, and issue one
forced refresh when tokenPayload.exp - now < 600 (a NaN difference never
passes). -/
def handleUserActivity (s : TMState) (sess : Except Unit (Option Session)) (nowMs : Nat) :
    ActivityOutcome :=
  match sess with
  | .error _ => { state := s, refreshCalls := 0 }
  | .ok none => { state := s, refreshCalls := 0 }
  | .ok (some se) =>
    let s1 := { s with store := { s.store with lastActivity := some nowMs } }
    let payload := decodeToken se.idToken
    if jsLt (jsSub (jsToNumber (getField payload "exp")) ((nowMs : Int) / 1000)) 600 then
      { state := s1, refreshCalls := 1 }
    else
      { state := s1, refreshCalls := 0 }

/-- Observable outcome of one environment-signal dispatch. -/
structure SignalOutcome where
  state : TMState
  activityCalls : Nat
  refreshCalls : Nat
deriving DecidableEq, Repr

/-- The visibilitychange listener of setupActivityListeners (source lines
294 to 299): when the document is no longer hidden, invoke
handleUserActivity; a hidden document is ignored. -/
def onVisibilityChange (s : TMState) (documentHidden : Bool)
    (sess : Except Unit (Option Session)) (nowMs : Nat) : SignalOutcome :=
  if documentHidden then { state := s, activityCalls := 0, refreshCalls := 0 }
  else
    let a := handleUserActivity s sess nowMs
    { state := a.state, activityCalls := 1, refreshCalls := a.refreshCalls }

/-- The online listener of setupActivityListeners (source lines 302 to
305): invoke refreshToken(true) directly. -/
def onOnline (s : TMState) (sess1 sess2 : Except Unit (Option Session)) (nowMs : Nat) :
    SignalOutcome :=
  let r := refreshToken s true sess1 sess2 nowMs
  { state := r.state, activityCalls := 0, refreshCalls := 1 }

/-- TokenManager.setupAutoSave (source lines 311 to 325): cancel any
existing auto-save interval and install the 30000 ms one. -/
def setupAutoSave (s : TMState) : TMState :=
  { s with autoSaveTimer := some 30000 }

/-- TokenManager.startTokenRefreshCycle (source lines 478 to 490): cancel
every timer, issue one immediate refreshToken(true) (reported as the
boolean of the pair; its deferred effects run on the event loop), and
install the periodic 20-minute refresh interval. -/
def startTokenRefreshCycle (s : TMState) : TMState × Bool :=
  let s1 := clearAllTimers s
  let s2 := { s1 with refreshTimer := some (20 * 60 * 1000) }
  (s2, true)

/-- One Backup Snapshot as persisted by the Auto-Save Engine; canvasData
holds the serialized editor state (the JSON text of canvas.toJSON(), so
the stringify comparison of the source is string equality here). -/
structure Backup where
  designId : String
  canvasData : String
  timestamp : Nat
deriving DecidableEq, Repr

/-- The durable per-origin key-value storage (localStorage restricted to
the backup keys), as an association list with earlier bindings shadowing
later ones. -/
abbrev Storage := List (String × Backup)

def getItem : Storage → String → Option Backup
  | [], _ => none
  | (k2, v) :: rest, k => if k2 = k then some v else getItem rest k

def eraseKey : Storage → String → Storage
  | [], _ => []
  | (k2, v) :: rest, k =>
    if k2 = k then eraseKey rest k else (k2, v) :: eraseKey rest k

def setItem (st : Storage) (k : String) (v : Backup) : Storage :=
  (k, v) :: eraseKey st k

/-- The deterministic backup key of a design identifier. -/
def backupKey (d : String) : String := "design_" ++ d ++ "_backup"

/-- The editor store as read by the auto-save tick; the canvas is
represented by its serialized state. -/
structure Canvas where
  canvasData : String
deriving DecidableEq, Repr

structure EditorState where
  canvas : Option Canvas
  designId : Option String
deriving DecidableEq, Repr

/-- TokenManager.autoSaveWork (source lines 328 to 364): no-op without a
canvas or with a falsy design id; otherwise compare the serialized state
against the stored snapshot for the design key and, when absent or
different, write exactly one new snapshot with the current timestamp.
The second component counts writes to durable storage. -/
def autoSaveWork (ed : EditorState) (st : Storage) (nowMs : Nat) : Storage × Nat :=
  match ed.canvas, ed.designId with
  | some c, some d =>
    if d = "" then (st, 0)
    else
      match getItem st (backupKey d) with
      | some prev =>
        if c.canvasData = prev.canvasData then (st, 0)
        else (setItem st (backupKey d) { designId := d, canvasData := c.canvasData, timestamp := nowMs }, 1)
      | none => (setItem st (backupKey d) { designId := d, canvasData := c.canvasData, timestamp := nowMs }, 1)
  | _, _ => (st, 0)

/-- One tick of the auto-save interval at the manager level: the tick
only reads the editor store and writes durable storage; the manager state
is not touched and no failure handling is reachable from it (all errors
are caught and logged in the source). -/
def autoSaveTick (s : TMState) (ed : EditorState) (st : Storage) (nowMs : Nat) :
    TMState × (Storage × Nat) :=
  (s, autoSaveWork ed st nowMs)

/-- Whether a JSON value is an object. -/
def isObjVal : JsonValue → Bool
  | .obj _ => true
  | _ => false

def token900 : String := "h.eyJzdWIiOiJhIiwiaWF0IjoxLCJleHAiOjkwMH0.s"

def token500 : String := "h.eyJzdWIiOiJhIiwiaWF0IjoxLCJleHAiOjUwMH0.s"

/-- Claim C1 counterexample: with a fresh manager (retry count 0, no
failure in progress), a single refresh invocation on which the Session
Provider returns an absent session already runs the Failure Handler, with
no backoff retry scheduled and the retry counter untouched; the claim and
the spec say the Failure Handler is reached only after three consecutive
absent-session attempts with local backoff retries in between. -/
theorem noSession_first_attempt_failure_cex :
    (refreshToken initState false (.ok none) (.ok none) 0).failureInvoked = some "NO_SESSION" ∧
    (refreshToken initState false (.ok none) (.ok none) 0).failureRan = true ∧
    (refreshToken initState false (.ok none) (.ok none) 0).retryDelay = none ∧
    (refreshToken initState false (.ok none) (.ok none) 0).state.tokenRetryCount = 0 := by
  refine ⟨rfl, rfl, rfl, rfl⟩

/-- Claim C1 (amended): when the Session Provider returns an absent
session on a refresh invocation and no failure is being handled, the
refresh fails with NoSession and invokes the Failure Handler immediately
on that first attempt (no local backoff retry on this path); the handler
runs exactly once — every timer is cancelled, a sign-out is scheduled
after the 3000 ms grace period, and any further absent-session refresh is
a no-op that leaves the state unchanged. -/
theorem noSession_immediate_failure (s : TMState) (force : Bool)
    (sess2 : Except Unit (Option Session)) (nowMs : Nat)
    (h : s.isHandlingFailure = false) :
    (refreshToken s force (.ok none) sess2 nowMs).failureInvoked = some "NO_SESSION" ∧
    (refreshToken s force (.ok none) sess2 nowMs).failureRan = true ∧
    (refreshToken s force (.ok none) sess2 nowMs).retryDelay = none ∧
    (refreshToken s force (.ok none) sess2 nowMs).returned = none ∧
    (refreshToken s force (.ok none) sess2 nowMs).state.isHandlingFailure = true ∧
    (refreshToken s force (.ok none) sess2 nowMs).state.refreshTimer = none ∧
    (refreshToken s force (.ok none) sess2 nowMs).state.activityTimer = none ∧
    (refreshToken s force (.ok none) sess2 nowMs).state.warningTimer = none ∧
    (refreshToken s force (.ok none) sess2 nowMs).state.autoSaveTimer = none ∧
    (refreshToken s force (.ok none) sess2 nowMs).state.failureTimeout = some 3000 ∧
    (∀ force2 sess2b nowMs2,
      (refreshToken (refreshToken s force (.ok none) sess2 nowMs).state force2 (.ok none)
          sess2b nowMs2).state =
        (refreshToken s force (.ok none) sess2 nowMs).state ∧
      (refreshToken (refreshToken s force (.ok none) sess2 nowMs).state force2 (.ok none)
          sess2b nowMs2).failureRan = false) := by
  simp [refreshToken, handleTokenFailure, clearAllTimers, h]

/-- Witness for noSession_immediate_failure at the constructor state. -/
theorem noSession_immediate_failure_witness :
    initState.isHandlingFailure = false ∧
    (refreshToken initState true (.ok none) (.ok none) 42).state.failureTimeout = some 3000 := by
  refine ⟨rfl, ?_⟩
  exact (noSession_immediate_failure initState true (.ok none) 42 rfl).2.2.2.2.2.2.2.2.2.1

/-- Claim C5 counterexample: with the auto-save interval installed,
starting the token refresh cycle cancels it (the handle becomes none and
is never rescheduled), while the claim says the auto-save timer is left
scheduled and unchanged. -/
theorem cycle_cancels_autosave_cex :
    (setupAutoSave initState).autoSaveTimer = some 30000 ∧
    (startTokenRefreshCycle (setupAutoSave initState)).1.autoSaveTimer = none := by
  refine ⟨rfl, rfl⟩

/-- Claim C5 (amended): starting (or restarting) the token refresh cycle
cancels every timer first, the auto-save interval included, and installs
only the 20-minute periodic refresh; the auto-save tick itself, on the
other hand, never touches the manager state and so never invokes the
Failure Handler (its errors are caught and logged). -/
theorem cycle_autosave_independence (s : TMState) (ed : EditorState) (st : Storage)
    (nowMs : Nat) :
    (startTokenRefreshCycle s).1.autoSaveTimer = none ∧
    (startTokenRefreshCycle s).1.refreshTimer = some (20 * 60 * 1000) ∧
    (startTokenRefreshCycle s).2 = true ∧
    (autoSaveTick s ed st nowMs).1 = s ∧
    (autoSaveTick s ed st nowMs).1.isHandlingFailure = s.isHandlingFailure := by
  refine ⟨rfl, rfl, rfl, rfl, rfl⟩

/-- Claim C6: the Failure Handler is single-flight — from a state with
the Failure-In-Progress Flag clear, the first invocation runs the
cleanup, notification and sign-out-scheduling sequence exactly once, and
a second invocation made on the resulting state (the flag now set) is a
no-op with no state change, so the two invocations together perform the
sequence exactly once. -/
theorem failure_handler_single_flight (s : TMState) (reason1 reason2 : String)
    (h : s.isHandlingFailure = false) :
    (handleTokenFailure s reason1).ran = true ∧
    (handleTokenFailure s reason1).cleanupCalls = 1 ∧
    (handleTokenFailure s reason1).notifyCalls = 1 ∧
    (handleTokenFailure s reason1).signOutDelay = some 3000 ∧
    (handleTokenFailure s reason1).state.isHandlingFailure = true ∧
    (handleTokenFailure (handleTokenFailure s reason1).state reason2).ran = false ∧
    (handleTokenFailure (handleTokenFailure s reason1).state reason2).state =
      (handleTokenFailure s reason1).state ∧
    (handleTokenFailure s reason1).cleanupCalls +
        (handleTokenFailure (handleTokenFailure s reason1).state reason2).cleanupCalls = 1 ∧
    (handleTokenFailure s reason1).notifyCalls +
        (handleTokenFailure (handleTokenFailure s reason1).state reason2).notifyCalls = 1 := by
  simp [handleTokenFailure, clearAllTimers, h]

/-- Witness for failure_handler_single_flight at the constructor state. -/
theorem failure_handler_single_flight_witness :
    initState.isHandlingFailure = false ∧
    (handleTokenFailure (handleTokenFailure initState "NO_SESSION").state
        "MAX_RETRIES_EXCEEDED").ran = false := by
  refine ⟨rfl, ?_⟩
  exact (failure_handler_single_flight initState "NO_SESSION" "MAX_RETRIES_EXCEEDED"
    rfl).2.2.2.2.2.1

/-- Claim C7: the backoff delay is base times 2 to the power of the retry
count minus one, recomputed per attempt — at base 1000 the counts 1, 2, 3
give exactly 1000, 2000 and 4000 ms — and a refresh attempt whose session
fetch throws, with the incremented counter still below the maximum,
schedules its supplementary retry after exactly that delay. -/
theorem backoff_delay_values (s : TMState) (force : Bool)
    (sess2 : Except Unit (Option Session)) (nowMs : Nat)
    (h : s.isHandlingFailure = false)
    (hlt : s.tokenRetryCount + 1 < s.maxTokenRetries) :
    backoffDelay 1000 1 = 1000 ∧ backoffDelay 1000 2 = 2000 ∧ backoffDelay 1000 3 = 4000 ∧
    (refreshToken s force (.error ()) sess2 nowMs).retryDelay =
      some (backoffDelay s.backoffBase (s.tokenRetryCount + 1)) ∧
    (refreshToken s force (.error ()) sess2 nowMs).state.tokenRetryCount =
      s.tokenRetryCount + 1 ∧
    (refreshToken s force (.error ()) sess2 nowMs).failureInvoked = none := by
  refine ⟨rfl, rfl, rfl, ?_, ?_, ?_⟩ <;>
    simp [refreshToken, refreshCatch, h, hlt]

/-- Witness for backoff_delay_values: the first and second thrown-error
retries of a fresh manager are scheduled after 1000 ms and 2000 ms. -/
theorem backoff_delay_values_witness :
    (refreshToken initState false (.error ()) (.ok none) 0).retryDelay = some 1000 ∧
    (refreshToken { initState with tokenRetryCount := 1 } false (.error ()) (.ok none) 0).retryDelay =
      some 2000 := by
  refine ⟨?_, ?_⟩
  · exact ((backoff_delay_values initState false (.ok none) 0 rfl (by decide)).2.2.2.1).trans rfl
  · exact ((backoff_delay_values { initState with tokenRetryCount := 1 } false (.ok none) 0 rfl
      (by decide)).2.2.2.1).trans rfl

/-- On an integer-valued operand the JS subtraction and comparison are
plain integer arithmetic. -/
theorem jsLt_jsSub_int (x k b : Int) :
    jsLt (jsSub (JSNum.fin { m := x, e := 0 }) k) b = decide (x - k < b) := by
  simp [jsSub, jsLt, Dec.subInt, Dec.ltInt]

/-- Core fact about the activity handler with a numeric expiry claim,
shared by the activity and visibility results below. -/
theorem activity_core (s : TMState) (tok : JSVal) (nowMs : Nat) (e : Int)
    (hexp : getField (decodeToken tok) "exp" = some (.num e)) :
    (handleUserActivity s (.ok (some ⟨tok⟩)) nowMs).state.store.lastActivity = some nowMs ∧
    (handleUserActivity s (.ok (some ⟨tok⟩)) nowMs).refreshCalls =
      (if e - (nowMs : Int) / 1000 < 600 then 1 else 0) ∧
    (handleUserActivity s (.ok (some ⟨tok⟩)) nowMs).state.store.currentToken =
      s.store.currentToken ∧
    (handleUserActivity s (.ok (some ⟨tok⟩)) nowMs).state.store.lastRefresh =
      s.store.lastRefresh := by
  have hcond : jsLt (jsSub (jsToNumber (getField (decodeToken tok) "exp"))
      ((nowMs : Int) / 1000)) 600 = decide (e - (nowMs : Int) / 1000 < 600) := by
    rw [hexp]
    simp only [jsToNumber]
    exact jsLt_jsSub_int e ((nowMs : Int) / 1000) 600
  simp only [handleUserActivity, hcond]
  by_cases hlt : e - (nowMs : Int) / 1000 < 600 <;> simp [hlt]

/-- Claim C8: on a handled activity occurrence with a present session
whose credential decodes to a numeric expiry claim, the handler records
lastActivity = now in the Shared Token Store, leaves the rest of the
store alone, and issues a forced refresh if and only if the remaining
lifetime is below 600 seconds. -/
theorem activity_refresh_threshold (s : TMState) (tok : JSVal) (nowMs : Nat) (e : Int)
    (hexp : getField (decodeToken tok) "exp" = some (.num e)) :
    (handleUserActivity s (.ok (some ⟨tok⟩)) nowMs).state.store.lastActivity = some nowMs ∧
    (handleUserActivity s (.ok (some ⟨tok⟩)) nowMs).refreshCalls =
      (if e - (nowMs : Int) / 1000 < 600 then 1 else 0) ∧
    (handleUserActivity s (.ok (some ⟨tok⟩)) nowMs).state.store.currentToken =
      s.store.currentToken ∧
    (handleUserActivity s (.ok (some ⟨tok⟩)) nowMs).state.store.lastRefresh =
      s.store.lastRefresh := by
  exact activity_core s tok nowMs e hexp

/-- Witness for activity_refresh_threshold: with the current time at
epoch 0, a credential with 500 s remaining triggers exactly one forced
refresh and a credential with 900 s remaining triggers none, while both
record the activity time. -/
theorem activity_refresh_threshold_witness :
    (handleUserActivity initState (.ok (some ⟨.strV token500⟩)) 0).refreshCalls = 1 ∧
    (handleUserActivity initState (.ok (some ⟨.strV token900⟩)) 0).refreshCalls = 0 ∧
    (handleUserActivity initState (.ok (some ⟨.strV token500⟩)) 0).state.store.lastActivity =
      some 0 := by
  have h5 := activity_refresh_threshold initState (.strV token500) 0 500 rfl
  have h9 := activity_refresh_threshold initState (.strV token900) 0 900 rfl
  exact ⟨h5.2.1.trans (by decide), h9.2.1.trans (by decide), h5.1⟩

/-- Claim C10 counterexample: the decoder does not always return an
object — on a token whose middle segment decodes to the JSON text 5, it
returns the number 5. -/
theorem decode_nonobject_cex :
    decodeToken (.strV "a.NQ.b") = JsonValue.num 5 ∧
    isObjVal (decodeToken (.strV "a.NQ.b")) = false := by
  refine ⟨rfl, rfl⟩

/-- Claim C10 (amended): the credential payload decoder is total — it
never throws; on any input whose decode pipeline fails (missing second
segment, base64url decode failure, or JSON parse failure) it returns the
empty object, and otherwise it returns the parsed payload value, which
need not be an object.  Consequently an activity check on an undecodable
credential records lastActivity but never issues a forced refresh. -/
theorem decode_total_activity_safe (tok : JSVal) (s : TMState) (nowMs : Nat)
    (h : decodeTry tok = none) :
    decodeToken tok = JsonValue.obj [] ∧
    (handleUserActivity s (.ok (some ⟨tok⟩)) nowMs).refreshCalls = 0 ∧
    (handleUserActivity s (.ok (some ⟨tok⟩)) nowMs).state.store.lastActivity = some nowMs := by
  have hd : decodeToken tok = JsonValue.obj [] := by simp [decodeToken, h]
  refine ⟨hd, ?_, ?_⟩ <;>
    simp [handleUserActivity, hd, getField, jsToNumber, jsSub, jsLt]

/-- Witness for decode_total_activity_safe on a dotless garbage token. -/
theorem decode_total_activity_safe_witness :
    decodeToken (.strV "garbage") = JsonValue.obj [] ∧
    (handleUserActivity initState (.ok (some ⟨.strV "garbage"⟩)) 7).refreshCalls = 0 := by
  have h := decode_total_activity_safe (.strV "garbage") initState 7 rfl
  exact ⟨h.1, h.2.1⟩

/-- Claim C4 counterexample: the tab-visibility-restored signal does not
invoke a forced refresh directly — with a present session whose
credential still has 900 s of lifetime, the visibility handler issues no
refresh invocation at all (it only runs the activity handler, whose
600 s threshold is not met). -/
theorem visibility_no_direct_refresh_cex :
    (onVisibilityChange initState false (.ok (some ⟨.strV token900⟩)) 0).refreshCalls = 0 ∧
    (onVisibilityChange initState false (.ok (some ⟨.strV token900⟩)) 0).activityCalls = 1 := by
  refine ⟨rfl, rfl⟩

/-- Claim C4 (amended): the visibility-restored signal invokes the
activity handler (not a direct forced refresh), so with a numeric expiry
it issues a forced refresh if and only if the remaining lifetime is
below 600 seconds; a hidden-transition is ignored; the
connectivity-restored signal does directly invoke one forced refresh,
whose effects are those of refreshToken with the force flag set. -/
theorem visibility_connectivity_signals (s : TMState)
    (sess sess2 : Except Unit (Option Session)) (nowMs : Nat) :
    (onVisibilityChange s true sess nowMs).refreshCalls = 0 ∧
    (onVisibilityChange s true sess nowMs).state = s ∧
    (onVisibilityChange s false sess nowMs).activityCalls = 1 ∧
    (onVisibilityChange s false sess nowMs).refreshCalls =
      (handleUserActivity s sess nowMs).refreshCalls ∧
    (∀ tok e, sess = .ok (some ⟨tok⟩) →
      getField (decodeToken tok) "exp" = some (.num e) →
      (onVisibilityChange s false sess nowMs).refreshCalls =
        (if e - (nowMs : Int) / 1000 < 600 then 1 else 0)) ∧
    (onOnline s sess sess2 nowMs).refreshCalls = 1 ∧
    (onOnline s sess sess2 nowMs).state = (refreshToken s true sess sess2 nowMs).state := by
  refine ⟨rfl, rfl, rfl, rfl, ?_, rfl, rfl⟩
  rintro tok e rfl hexp
  simpa [onVisibilityChange] using (activity_core s tok nowMs e hexp).2.1

/-- Witness for visibility_connectivity_signals: visibility restoration
with 900 s remaining issues no refresh; connectivity restoration issues
exactly one. -/
theorem visibility_connectivity_signals_witness :
    (onVisibilityChange initState false (.ok (some ⟨.strV token900⟩)) 0).refreshCalls = 0 ∧
    (onOnline initState (.ok (some ⟨.strV token900⟩)) (.ok none) 0).refreshCalls = 1 := by
  have h := visibility_connectivity_signals initState (.ok (some ⟨.strV token900⟩)) (.ok none) 0
  refine ⟨?_, h.2.2.2.2.2.1⟩
  exact (h.2.2.2.2.1 (.strV token900) 900 rfl rfl).trans (by decide)

/-- Reading back the key just written returns the new snapshot. -/
theorem getItem_setItem_self (st : Storage) (k : String) (v : Backup) :
    getItem (setItem st k v) k = some v := by
  simp [setItem, getItem]

/-- Erasing one key leaves reads of any other key unchanged. -/
theorem getItem_eraseKey_ne (st : Storage) (k k2 : String) (h : k2 ≠ k) :
    getItem (eraseKey st k) k2 = getItem st k2 := by
  induction st with
  | nil => rfl
  | cons hd tl ih =>
    obtain ⟨hk, hv⟩ := hd
    by_cases hkk : hk = k
    · subst hkk
      have : hk ≠ k2 := fun hh => h hh.symm
      simp [eraseKey, getItem, this, ih]
    · by_cases hk2 : hk = k2 <;> simp [eraseKey, getItem, hkk, hk2, h, ih]

/-- Writing one key leaves reads of any other key unchanged. -/
theorem getItem_setItem_ne (st : Storage) (k k2 : String) (v : Backup) (h : k2 ≠ k) :
    getItem (setItem st k v) k2 = getItem st k2 := by
  have : k ≠ k2 := fun hh => h hh.symm
  simp [setItem, getItem, this, getItem_eraseKey_ne st k k2 h]

/-- Claim C9: on an auto-save tick with an active design context and a
bound canvas, if the serialized editor state equals the stored snapshot
state for the design key, storage is untouched and no write happens; if
it differs or no snapshot exists, the tick performs exactly one write,
storing the snapshot of the design id, the serialized state and the
current timestamp under the design key and leaving every other key
unchanged. -/
theorem autosave_write_characterization (c : Canvas) (d : String) (st : Storage)
    (nowMs : Nat) (hd : d ≠ "") :
    ((∃ prev, getItem st (backupKey d) = some prev ∧ prev.canvasData = c.canvasData) →
      autoSaveWork ⟨some c, some d⟩ st nowMs = (st, 0)) ∧
    ((∀ prev, getItem st (backupKey d) = some prev → prev.canvasData ≠ c.canvasData) →
      (autoSaveWork ⟨some c, some d⟩ st nowMs).2 = 1 ∧
      getItem (autoSaveWork ⟨some c, some d⟩ st nowMs).1 (backupKey d) =
        some ⟨d, c.canvasData, nowMs⟩ ∧
      (∀ k2, k2 ≠ backupKey d →
        getItem (autoSaveWork ⟨some c, some d⟩ st nowMs).1 k2 = getItem st k2)) := by
  constructor
  · rintro ⟨prev, hprev, heq⟩
    simp [autoSaveWork, hd, hprev, heq.symm]
  · intro hne
    rcases hprev : getItem st (backupKey d) with _ | prev
    · refine ⟨?_, ?_, ?_⟩
      · simp [autoSaveWork, hd, hprev]
      · simp [autoSaveWork, hd, hprev, getItem_setItem_self]
      · intro k2 hk2
        simp [autoSaveWork, hd, hprev, getItem_setItem_ne st (backupKey d) k2 _ hk2]
    · have hneq : ¬ c.canvasData = prev.canvasData := fun hh =>
        hne prev hprev hh.symm
      refine ⟨?_, ?_, ?_⟩
      · simp [autoSaveWork, hd, hprev, hneq]
      · simp [autoSaveWork, hd, hprev, hneq, getItem_setItem_self]
      · intro k2 hk2
        simp [autoSaveWork, hd, hprev, hneq, getItem_setItem_ne st (backupKey d) k2 _ hk2]

/-- Witness for autosave_write_characterization: with empty storage the
first tick writes one snapshot; a second tick with the same serialized
state writes nothing; a tick with a changed state writes exactly one new
snapshot. -/
theorem autosave_write_characterization_witness :
    (autoSaveWork ⟨some ⟨"A"⟩, some "x"⟩ [] 5).2 = 1 ∧
    autoSaveWork ⟨some ⟨"A"⟩, some "x"⟩ (autoSaveWork ⟨some ⟨"A"⟩, some "x"⟩ [] 5).1 6 =
      ((autoSaveWork ⟨some ⟨"A"⟩, some "x"⟩ [] 5).1, 0) ∧
    (autoSaveWork ⟨some ⟨"B"⟩, some "x"⟩ (autoSaveWork ⟨some ⟨"A"⟩, some "x"⟩ [] 5).1 7).2 = 1 := by
  have hfirst := (autosave_write_characterization ⟨"A"⟩ "x" [] 5 (by decide)).2
    (by intro prev hp; simp [getItem] at hp)
  refine ⟨hfirst.1, ?_, ?_⟩
  · exact (autosave_write_characterization ⟨"A"⟩ "x" _ 6 (by decide)).1
      ⟨⟨"x", "A", 5⟩, by simpa using hfirst.2.1, rfl⟩
  · exact ((autosave_write_characterization ⟨"B"⟩ "x" _ 7 (by decide)).2
      (by
        intro prev hp
        have := hfirst.2.1
        rw [this] at hp
        cases hp
        decide)).1

/-- The payload checks of the validator hold exactly when the segment
decodes and parses to a payload whose three claims are truthy. -/
theorem payloadClaims_iff (p : List Char) :
    payloadClaims p = true ↔
      ∃ payload, parsePayloadSeg p = some payload ∧
        truthy (getField payload "sub") = true ∧
        truthy (getField payload "exp") = true ∧
        truthy (getField payload "iat") = true := by
  rw [payloadClaims]
  rcases hpp : parsePayloadSeg p with _ | payload
  · simp
  · simp only [Bool.and_eq_true]
    constructor
    · rintro ⟨⟨h1, h2⟩, h3⟩
      exact ⟨payload, rfl, h1, h2, h3⟩
    · rintro ⟨payload2, hp2, h1, h2, h3⟩
      cases hp2
      exact ⟨⟨h1, h2⟩, h3⟩

/-- Witness for payloadClaims_iff at the concrete well-formed payload
segment of the counterexample token. -/
theorem payloadClaims_iff_witness :
    payloadClaims "eyJzdWIiOiJhIiwiaWF0IjoxLCJleHAiOjJ9".toList = true := by
  exact (payloadClaims_iff "eyJzdWIiOiJhIiwiaWF0IjoxLCJleHAiOjJ9".toList).mpr
    ⟨.obj [("sub", .str "a"), ("iat", .num 1), ("exp", .num 2)], rfl, rfl, rfl, rfl⟩

